import Mathlib

/-!
Verification development for the aiResumeWizard repository.

The main object is a shallow embedding of the client-side PDF layout engine
(client/src/lib/pdf-generator.ts).  The engine is modelled as a pure function
from resume content, template style and page geometry to a chronological list
of layout events: drawn primitives (text blocks and rules) interleaved with
page breaks.  The host text-measurement facilities of jsPDF
(splitTextToSize, getTextWidth) and the final document encoding are modelled
as an oracle that may fail, matching the try/catch failure semantics of
generateResumePDF.  Font and colour attributes of drawn primitives are pure
presentation state and are not tracked.

A second, smaller embedding models the per-user rate limiting of the five
AI generation routes of the server (server/routes.ts).
-/

namespace ResumeWizard

/-- Coordinates on the page, in millimetres (the document is created with
unit "mm", format "a4").  All cursor arithmetic of the engine is integral;
the sole division, in the contact line, is exact for the A4 content width
of 180 and the at most four contact entries, so integer coordinates are
faithful. -/
abbrev Coord := ℤ

/-- JS truthiness of an optional string field: an absent field and the empty
string are falsy. -/
def strTruthy : Option String → Bool
  | none => false
  | some s => s != ""

/-- The JS idiom (field || fallback) on an optional string field: the
fallback is used when the field is absent or empty. -/
def strOrElse : Option String → String → String
  | none, d => d
  | some s, d => if s = "" then d else s

/-- personalInfo of shared/schema.ts (the five-template schema variant used
by the generator); optional fields are Option since the generator guards
every access. -/
structure PersonalInfo where
  fullName : Option String
  professionalTitle : Option String
  email : Option String
  phone : Option String
  location : Option String
  website : Option String
  summary : Option String
deriving DecidableEq, Repr

/-- experienceItem of shared/schema.ts. -/
structure ExperienceItem where
  id : String
  title : Option String
  company : Option String
  location : Option String
  startDate : Option String
  endDate : Option String
  current : Bool
  description : Option String
  highlights : Option (List String)
deriving DecidableEq, Repr

/-- educationItem of shared/schema.ts. -/
structure EducationItem where
  id : String
  institution : Option String
  degree : Option String
  field : Option String
  location : Option String
  startDate : Option String
  endDate : Option String
  current : Bool
  description : Option String
deriving DecidableEq, Repr

/-- skillItem of shared/schema.ts; the generator additionally reads an
optional category property when grouping skills. -/
structure SkillItem where
  id : String
  name : String
  level : Option Nat
  category : Option String
deriving DecidableEq, Repr

/-- resumeContent of shared/schema.ts: the three lists are optional. -/
structure ResumeContent where
  personalInfo : PersonalInfo
  experience : Option (List ExperienceItem)
  education : Option (List EducationItem)
  skills : Option (List SkillItem)
deriving DecidableEq, Repr

/-- A stored resume row (resumes table); template is a plain string at
runtime, the generator casts it and falls back on an unknown value. -/
structure Resume where
  id : Nat
  userId : Nat
  title : String
  template : String
  content : ResumeContent
  downloads : Nat
  atsScore : Option Int
deriving DecidableEq, Repr

/-- A template style record of pdf-generator.ts (templateStyles values). -/
structure TemplateStyle where
  headerColor : String
  accentColor : String
  bodyFont : String
  headerFont : String
  sectionSpacing : Coord
  bulletSpacing : Coord
  lineSpacing : Coord
deriving DecidableEq, Repr

/-- templateStyles.modern. -/
def modernStyle : TemplateStyle :=
  ⟨"#3b82f6", "#93c5fd", "helvetica", "helvetica", 10, 5, 5⟩

/-- templateStyles.professional. -/
def professionalStyle : TemplateStyle :=
  ⟨"#1e40af", "#60a5fa", "helvetica", "helvetica", 12, 6, 6⟩

/-- templateStyles.creative. -/
def creativeStyle : TemplateStyle :=
  ⟨"#8b5cf6", "#c4b5fd", "helvetica", "helvetica", 8, 4, 4⟩

/-- templateStyles.simple. -/
def simpleStyle : TemplateStyle :=
  ⟨"#000000", "#d1d5db", "helvetica", "helvetica", 15, 7, 7⟩

/-- templateStyles.elegant. -/
def elegantStyle : TemplateStyle :=
  ⟨"#1f2937", "#9ca3af", "helvetica", "helvetica", 11, 5, 5⟩

/-- The templateStyles record of pdf-generator.ts, as a finite map from
template identifier strings to style records. -/
def templateStyles : String → Option TemplateStyle
  | "modern" => some modernStyle
  | "professional" => some professionalStyle
  | "creative" => some creativeStyle
  | "simple" => some simpleStyle
  | "elegant" => some elegantStyle
  | _ => none

/-- Style selection in generateResumePDF:
style = templateStyles[template] || templateStyles.modern. -/
def resolveStyle (template : String) : TemplateStyle :=
  (templateStyles template).getD modernStyle

/-- Page geometry: width, height and margin, in millimetres. -/
structure PageGeometry where
  pageWidth : Coord
  pageHeight : Coord
  margin : Coord
deriving DecidableEq, Repr

/-- The geometry used by generateResumePDF: an A4 page with a 15mm margin. -/
def a4Geometry : PageGeometry := ⟨210, 297, 15⟩

/-- A drawn primitive: a text block (doc.text, which accepts a single string
or an array of wrapped lines, drawn at a baseline position) or a rule
(doc.line). -/
inductive DrawItem where
  | text (lines : List String) (x y : Coord)
  | rule (x1 y1 x2 y2 : Coord)
deriving DecidableEq, Repr

/-- A layout event: a drawn primitive on the current page, or a page break
(doc.addPage), which opens a fresh page at the end of the document and makes
it current. -/
inductive Ev where
  | draw (item : DrawItem)
  | newPage
deriving DecidableEq, Repr

/-- The host facilities used by the engine, each of which may fail (the
source wraps the whole body in try/catch): text wrapping
(doc.splitTextToSize), text measurement (doc.getTextWidth) and the final
document encoding (doc.output). -/
structure TextMetrics where
  splitTextToSize : String → Coord → Except String (List String)
  getTextWidth : String → Except String Coord
  encode : List (List DrawItem) → Except String String

/-- A never-failing variant of the host facilities. -/
structure TotalTextMetrics where
  splitTextToSize : String → Coord → List String
  getTextWidth : String → Coord
  encode : List (List DrawItem) → String

/-- View a never-failing oracle as a fallible one. -/
def TotalTextMetrics.lift (m : TotalTextMetrics) : TextMetrics where
  splitTextToSize s w := .ok (m.splitTextToSize s w)
  getTextWidth s := .ok (m.getTextWidth s)
  encode d := .ok (m.encode d)

/-- checkAndAddPage of pdf-generator.ts: if the cursor is already past the
bottom margin, add a page and restart at margin + 10; otherwise keep the
cursor unchanged. -/
def checkAndAddPage (g : PageGeometry) (currentY : Coord) : List Ev × Coord :=
  if currentY > g.pageHeight - g.margin then ([Ev.newPage], g.margin + 10)
  else ([], currentY)

/-- addSectionTitle of pdf-generator.ts: draw the title at the left margin
and advance the cursor by 7. -/
def addSectionTitle (g : PageGeometry) (title : String) (y : Coord) :
    List Ev × Coord :=
  ([Ev.draw (.text [title] g.margin y)], y + 7)

/-- The header block: full name (or the placeholder) at currentY + 10, the
professional title (or the placeholder) at currentY + 18, then
currentY += 25. -/
def layoutHeader (g : PageGeometry) (pinfo : PersonalInfo) (y : Coord) :
    List Ev × Coord :=
  ([Ev.draw (.text [strOrElse pinfo.fullName "Full Name"] g.margin (y + 10)),
    Ev.draw (.text [strOrElse pinfo.professionalTitle "Professional Title"]
      g.margin (y + 18))],
   y + 25)

/-- The contact entries: the four icon/text pairs filtered by truthiness of
the text. -/
def contactInfo (pinfo : PersonalInfo) : List (String × String) :=
  [("📧", pinfo.email), ("📱", pinfo.phone),
   ("📍", pinfo.location), ("🌐", pinfo.website)].filterMap
    (fun p => match p.2 with
      | some s => if s = "" then none else some (p.1, s)
      | none => none)

/-- Drawing of the contact entries: entry number i is placed at
margin + i * (pageWidth - 2 * margin) / n. -/
def contactLineAux (g : PageGeometry) (n : Coord) (y : Coord) :
    Nat → List (String × String) → List Ev
  | _, [] => []
  | i, p :: rest =>
      Ev.draw (.text [p.1 ++ " " ++ p.2]
        (g.margin + ((i : Coord) * (g.pageWidth - 2 * g.margin)) / n) y)
        :: contactLineAux g n y (i + 1) rest

/-- The contact line of generateResumePDF. -/
def contactLine (g : PageGeometry) (pinfo : PersonalInfo) (y : Coord) :
    List Ev :=
  contactLineAux g ((contactInfo pinfo).length : Coord) y 0 (contactInfo pinfo)

/-- The date range of an experience or education entry: empty unless the
start date is truthy; then the start date, followed by Present when current,
else by the end date when truthy. -/
def dateRangeText (startDate endDate : Option String) (current : Bool) :
    String :=
  if strTruthy startDate then
    startDate.getD "" ++
      (if current then " - Present"
       else if strTruthy endDate then " - " ++ endDate.getD ""
       else "")
  else ""

/-- Drawing of a nonempty date range, right aligned: the width is measured
and the text drawn at pageWidth - margin - width. -/
def dateEvsE (m : TextMetrics) (g : PageGeometry) (dt : String) (y : Coord) :
    Except String (List Ev) :=
  if dt = "" then .ok []
  else
    match m.getTextWidth dt with
    | .error er => .error er
    | .ok w => .ok [Ev.draw (.text [dt] (g.pageWidth - g.margin - w) y)]

/-- The optional location line of an entry: when truthy it is drawn at
y + 10 and the cursor advances by 15, otherwise the cursor advances by 10. -/
def locationStep (g : PageGeometry) (loc : Option String) (y : Coord) :
    List Ev × Coord :=
  if strTruthy loc then
    ([Ev.draw (.text [loc.getD ""] g.margin (y + 10))], y + 15)
  else ([], y + 10)

/-- The optional description paragraph of an experience or education entry:
wrapped to the content width, drawn at the cursor, advancing by
lines * lineSpacing + 3 (this block is identical in both entry kinds in the
source). -/
def descStepE (m : TextMetrics) (st : TemplateStyle) (g : PageGeometry)
    (desc : Option String) (y : Coord) : Except String (List Ev × Coord) :=
  if strTruthy desc then
    match m.splitTextToSize (desc.getD "") (g.pageWidth - 2 * g.margin) with
    | .error er => .error er
    | .ok dls =>
        .ok ([Ev.draw (.text dls g.margin y)],
             y + (dls.length : Coord) * st.lineSpacing + 3)
  else .ok ([], y)

/-- The bullet loop of an experience entry: each highlight is checked for a
page break independently, wrapped at content width minus 2 with a bullet
glyph prefix, drawn at margin + 2, advancing by
lines * lineSpacing + bulletSpacing. -/
def layoutBullets (m : TextMetrics) (st : TemplateStyle) (g : PageGeometry) :
    List String → Coord → Except String (List Ev × Coord)
  | [], y => .ok ([], y)
  | h :: rest, y =>
      let c := checkAndAddPage g y
      match m.splitTextToSize ("• " ++ h) (g.pageWidth - 2 * g.margin - 2) with
      | .error er => .error er
      | .ok bl =>
          match layoutBullets m st g rest
              (c.2 + (bl.length : Coord) * st.lineSpacing + st.bulletSpacing) with
          | .error er => .error er
          | .ok (evs, y1) =>
              .ok (c.1 ++ [Ev.draw (.text bl (g.margin + 2) c.2)] ++ evs, y1)

/-- One experience entry: page-break check, title and company lines (with
placeholders), right-aligned date range, optional location, optional
description, bullet list, then a trailing sectionSpacing advance. -/
def layoutExperienceEntry (m : TextMetrics) (st : TemplateStyle)
    (g : PageGeometry) (e : ExperienceItem) (y : Coord) :
    Except String (List Ev × Coord) :=
  let c := checkAndAddPage g y
  let dt := dateRangeText e.startDate e.endDate e.current
  match dateEvsE m g dt c.2 with
  | .error er => .error er
  | .ok dateEvs =>
      let lstep := locationStep g e.location c.2
      match descStepE m st g e.description lstep.2 with
      | .error er => .error er
      | .ok (descEvs, y2) =>
          match layoutBullets m st g (e.highlights.getD []) y2 with
          | .error er => .error er
          | .ok (bEvs, y3) =>
              .ok (c.1 ++
                    [Ev.draw (.text [strOrElse e.title "Position"] g.margin c.2),
                     Ev.draw (.text [strOrElse e.company "Company"] g.margin
                       (c.2 + 5))] ++
                    dateEvs ++ lstep.1 ++ descEvs ++ bEvs,
                   y3 + st.sectionSpacing)

/-- The loop over experience entries. -/
def layoutExperienceEntries (m : TextMetrics) (st : TemplateStyle)
    (g : PageGeometry) :
    List ExperienceItem → Coord → Except String (List Ev × Coord)
  | [], y => .ok ([], y)
  | e :: rest, y =>
      match layoutExperienceEntry m st g e y with
      | .error er => .error er
      | .ok (evs, y1) =>
          match layoutExperienceEntries m st g rest y1 with
          | .error er => .error er
          | .ok (evs2, y2) => .ok (evs ++ evs2, y2)

/-- The experience section: skipped entirely unless the list is present and
nonempty; otherwise page-break check, section title, then the entries. -/
def layoutExperience (m : TextMetrics) (st : TemplateStyle)
    (g : PageGeometry) (exps : Option (List ExperienceItem)) (y : Coord) :
    Except String (List Ev × Coord) :=
  match exps with
  | none => .ok ([], y)
  | some l =>
      if l.length > 0 then
        let c := checkAndAddPage g y
        let t := addSectionTitle g "Experience" c.2
        match layoutExperienceEntries m st g l t.2 with
        | .error er => .error er
        | .ok (evs, y2) => .ok (c.1 ++ t.1 ++ evs, y2)
      else .ok ([], y)

/-- The degree line text of an education entry: empty unless the degree is
truthy; the field is appended when truthy. -/
def degreeText (degree field : Option String) : String :=
  if strTruthy degree then
    degree.getD "" ++ (if strTruthy field then " in " ++ field.getD "" else "")
  else ""

/-- One education entry: page-break check, institution line (with
placeholder), optional degree line, right-aligned date range, optional
location, optional description, then a trailing sectionSpacing advance. -/
def layoutEducationEntry (m : TextMetrics) (st : TemplateStyle)
    (g : PageGeometry) (e : EducationItem) (y : Coord) :
    Except String (List Ev × Coord) :=
  let c := checkAndAddPage g y
  let dg := degreeText e.degree e.field
  let dt := dateRangeText e.startDate e.endDate e.current
  match dateEvsE m g dt c.2 with
  | .error er => .error er
  | .ok dateEvs =>
      let lstep := locationStep g e.location c.2
      match descStepE m st g e.description lstep.2 with
      | .error er => .error er
      | .ok (descEvs, y2) =>
          .ok (c.1 ++
                [Ev.draw (.text [strOrElse e.institution "Institution"]
                  g.margin c.2)] ++
                (if dg = "" then []
                 else [Ev.draw (.text [dg] g.margin (c.2 + 5))]) ++
                dateEvs ++ lstep.1 ++ descEvs,
               y2 + st.sectionSpacing)

/-- The loop over education entries. -/
def layoutEducationEntries (m : TextMetrics) (st : TemplateStyle)
    (g : PageGeometry) :
    List EducationItem → Coord → Except String (List Ev × Coord)
  | [], y => .ok ([], y)
  | e :: rest, y =>
      match layoutEducationEntry m st g e y with
      | .error er => .error er
      | .ok (evs, y1) =>
          match layoutEducationEntries m st g rest y1 with
          | .error er => .error er
          | .ok (evs2, y2) => .ok (evs ++ evs2, y2)

/-- The education section: skipped entirely unless the list is present and
nonempty. -/
def layoutEducation (m : TextMetrics) (st : TemplateStyle)
    (g : PageGeometry) (edus : Option (List EducationItem)) (y : Coord) :
    Except String (List Ev × Coord) :=
  match edus with
  | none => .ok ([], y)
  | some l =>
      if l.length > 0 then
        let c := checkAndAddPage g y
        let t := addSectionTitle g "Education" c.2
        match layoutEducationEntries m st g l t.2 with
        | .error er => .error er
        | .ok (evs, y2) => .ok (c.1 ++ t.1 ++ evs, y2)
      else .ok ([], y)

/-- Insertion into the category grouping, preserving JS object key insertion
order: a new category is appended at the end, an existing one accumulates
the skill name at the end of its list. -/
def jsGroupInsert (acc : List (String × List String)) (cat nm : String) :
    List (String × List String) :=
  if (acc.map Prod.fst).contains cat then
    acc.map (fun p => if p.1 = cat then (p.1, p.2 ++ [nm]) else p)
  else acc ++ [(cat, [nm])]

/-- skillsByCategory of generateResumePDF: skills grouped by category (with
the Other fallback), in insertion order. -/
def skillsByCategory (skills : List SkillItem) : List (String × List String) :=
  skills.foldl (fun acc s => jsGroupInsert acc (strOrElse s.category "Other") s.name) []

/-- The loop over skill groups: page-break check per group, the category
name drawn (advancing 5) except for the Other group, then the names joined
with a separator glyph, wrapped and drawn, advancing by
lines * lineSpacing + sectionSpacing. -/
def layoutSkillGroups (m : TextMetrics) (st : TemplateStyle)
    (g : PageGeometry) :
    List (String × List String) → Coord → Except String (List Ev × Coord)
  | [], y => .ok ([], y)
  | (cat, names) :: rest, y =>
      let c := checkAndAddPage g y
      let catStep : List Ev × Coord :=
        if cat ≠ "Other" then
          ([Ev.draw (.text [cat] g.margin c.2)], c.2 + 5)
        else ([], c.2)
      match m.splitTextToSize (String.intercalate " • " names)
          (g.pageWidth - 2 * g.margin) with
      | .error er => .error er
      | .ok sl =>
          match layoutSkillGroups m st g rest
              (catStep.2 + (sl.length : Coord) * st.lineSpacing + st.sectionSpacing) with
          | .error er => .error er
          | .ok (evs, y2) =>
              .ok (c.1 ++ catStep.1 ++
                    [Ev.draw (.text sl g.margin catStep.2)] ++ evs, y2)

/-- The skills section: skipped entirely unless the list is present and
nonempty. -/
def layoutSkills (m : TextMetrics) (st : TemplateStyle) (g : PageGeometry)
    (skills : Option (List SkillItem)) (y : Coord) :
    Except String (List Ev × Coord) :=
  match skills with
  | none => .ok ([], y)
  | some l =>
      if l.length > 0 then
        let c := checkAndAddPage g y
        let t := addSectionTitle g "Skills" c.2
        match layoutSkillGroups m st g (skillsByCategory l) t.2 with
        | .error er => .error er
        | .ok (evs, y2) => .ok (c.1 ++ t.1 ++ evs, y2)
      else .ok ([], y)

/-- The summary section: skipped unless the summary is truthy; otherwise
page-break check at y + sectionSpacing, section title, wrapped paragraph,
advancing by lines * lineSpacing + sectionSpacing. -/
def layoutSummary (m : TextMetrics) (st : TemplateStyle) (g : PageGeometry)
    (pinfo : PersonalInfo) (y : Coord) : Except String (List Ev × Coord) :=
  if strTruthy pinfo.summary then
    let c := checkAndAddPage g (y + st.sectionSpacing)
    let t := addSectionTitle g "Summary" c.2
    match m.splitTextToSize (pinfo.summary.getD "")
        (g.pageWidth - 2 * g.margin) with
    | .error er => .error er
    | .ok lines =>
        .ok (c.1 ++ t.1 ++ [Ev.draw (.text lines g.margin t.2)],
             t.2 + (lines.length : Coord) * st.lineSpacing + st.sectionSpacing)
  else .ok ([], y)

/-- The full layout pass of generateResumePDF: header, contact line,
divider rule, then the four optional sections in order, starting with the
cursor at the top margin. -/
def layoutResume (m : TextMetrics) (st : TemplateStyle) (g : PageGeometry)
    (content : ResumeContent) : Except String (List Ev) :=
  let h := layoutHeader g content.personalInfo g.margin
  let cEvs := contactLine g content.personalInfo h.2
  let y2 := h.2 + 10
  let dividerEv := Ev.draw (.rule g.margin y2 (g.pageWidth - g.margin) y2)
  match layoutSummary m st g content.personalInfo y2 with
  | .error er => .error er
  | .ok (sEvs, y3) =>
      match layoutExperience m st g content.experience y3 with
      | .error er => .error er
      | .ok (eEvs, y4) =>
          match layoutEducation m st g content.education y4 with
          | .error er => .error er
          | .ok (edEvs, y5) =>
              match layoutSkills m st g content.skills y5 with
              | .error er => .error er
              | .ok (skEvs, _) =>
                  .ok (h.1 ++ cEvs ++ [dividerEv] ++ sEvs ++ eEvs ++ edEvs ++ skEvs)

/-- Replay of the layout events into pages: draws land on the current page,
a page break opens a fresh page at the end and makes it current (jsPDF
starts with one page). -/
def pagesOf : List Ev → List (List DrawItem)
  | [] => [[]]
  | Ev.draw it :: rest =>
      match pagesOf rest with
      | [] => [[it]]
      | p :: ps => (it :: p) :: ps
  | Ev.newPage :: rest => [] :: pagesOf rest

/-- The drawn items of an event list, in order, page breaks dropped. -/
def drawsOf : List Ev → List DrawItem
  | [] => []
  | Ev.draw it :: rest => it :: drawsOf rest
  | Ev.newPage :: rest => drawsOf rest

/-- The page-number footer stamped on page i of n, at the fixed position
(pageWidth - margin - 20, pageHeight - margin). -/
def pageNumberFooter (g : PageGeometry) (i n : Nat) : DrawItem :=
  .text ["Page " ++ toString i ++ " of " ++ toString n]
    (g.pageWidth - g.margin - 20) (g.pageHeight - g.margin)

/-- The page-number loop, stamping pages i0 + 1, i0 + 2, ... of n. -/
def stampAux (g : PageGeometry) (n : Nat) :
    Nat → List (List DrawItem) → List (List DrawItem)
  | _, [] => []
  | i, p :: rest => (p ++ [pageNumberFooter g (i + 1) n]) :: stampAux g n (i + 1) rest

/-- The second pass of generateResumePDF: after all content is laid out,
every page of the completed page set receives its footer. -/
def stampPageNumbers (g : PageGeometry) (pages : List (List DrawItem)) :
    List (List DrawItem) :=
  stampAux g pages.length 0 pages

/-- The pages of the finished document: the layout pass, replayed into
pages, with page numbers stamped as a post-process. -/
def renderPages (m : TextMetrics) (r : Resume) :
    Except String (List (List DrawItem)) :=
  match layoutResume m (resolveStyle r.template) a4Geometry r.content with
  | .error er => .error er
  | .ok evs => .ok (stampPageNumbers a4Geometry (pagesOf evs))

/-- The body of generateResumePDF inside the try block: layout, pagination,
numbering, then encoding of the document. -/
def generateBody (m : TextMetrics) (r : Resume) : Except String String :=
  match renderPages m r with
  | .error er => .error er
  | .ok pages => m.encode pages

/-- generateResumePDF of pdf-generator.ts: the whole body runs inside one
try/catch; any failure is replaced by the single fixed export-failed
message. -/
def generateResumePDF (m : TextMetrics) (r : Resume) : Except String String :=
  match generateBody m r with
  | .ok out => .ok out
  | .error _ => .error "Failed to generate PDF. Please try again."

/-! ### The AI generation routes (server routes, rate-limited variant) -/

/-- The five AI generation endpoints of the server. -/
inductive AIEndpoint where
  | summary
  | bullets
  | analyze
  | skills
  | coverLetter
deriving DecidableEq, Repr

/-- The per-user generation limit hardcoded in each of the five handlers. -/
def aiGenerationLimit : Nat := 3

/-- The response of an AI route: a successful payload, the 403
limit-reached rejection, or the 500 failure response. -/
inductive AIResult (α : Type) where
  | ok (payload : α)
  | limitReached
  | failure
deriving DecidableEq, Repr

/-- One AI generation request handled against the stored per-user counter
(none when getAIGenerationStats finds no user document).  Returns the
response, whether the LLM generator was invoked, and the stored counter
after the request (incrementAIGenerationCount adds exactly one, and runs
only after a successful generation). -/
def handleAIGeneration {α : Type} (stats : Option Nat)
    (llm : Except Unit α) : AIResult α × Bool × Option Nat :=
  match stats with
  | none => (AIResult.limitReached, false, none)
  | some c =>
      if c ≥ aiGenerationLimit then (AIResult.limitReached, false, some c)
      else
        match llm with
        | .error _ => (AIResult.failure, true, some c)
        | .ok a => (AIResult.ok a, true, some (c + 1))

/-- The five route handlers; each one applies the same guard-generate-
increment sequence around its own generator call. -/
def aiRoute (ep : AIEndpoint) (stats : Option Nat)
    (llm : Except Unit String) : AIResult String × Bool × Option Nat :=
  match ep with
  | .summary => handleAIGeneration stats llm
  | .bullets => handleAIGeneration stats llm
  | .analyze => handleAIGeneration stats llm
  | .skills => handleAIGeneration stats llm
  | .coverLetter => handleAIGeneration stats llm

/-! ### Basic lemmas about the embedding -/

/-- Lifted text wrapping never fails. -/
@[simp] theorem lift_split (m : TotalTextMetrics) (s : String) (w : Coord) :
    m.lift.splitTextToSize s w = .ok (m.splitTextToSize s w) := rfl

/-- Lifted text measurement never fails. -/
@[simp] theorem lift_width (m : TotalTextMetrics) (s : String) :
    m.lift.getTextWidth s = .ok (m.getTextWidth s) := rfl

/-- Lifted encoding never fails. -/
@[simp] theorem lift_encode (m : TotalTextMetrics) (d : List (List DrawItem)) :
    m.lift.encode d = .ok (m.encode d) := rfl

/-- The page-break helper emits a break exactly when the cursor is already
past the bottom margin. -/
theorem newPage_mem_checkAndAddPage (g : PageGeometry) (y : Coord) :
    Ev.newPage ∈ (checkAndAddPage g y).1 ↔ y > g.pageHeight - g.margin := by
  by_cases h : y > g.pageHeight - g.margin <;> simp [checkAndAddPage, h]

/-- After a page break the cursor restarts at margin + 10. -/
theorem checkAndAddPage_snd_of_gt (g : PageGeometry) (y : Coord)
    (h : y > g.pageHeight - g.margin) :
    (checkAndAddPage g y).2 = g.margin + 10 := by
  simp [checkAndAddPage, h]

/-- Without a page break the cursor is unchanged. -/
theorem checkAndAddPage_snd_of_le (g : PageGeometry) (y : Coord)
    (h : ¬ y > g.pageHeight - g.margin) :
    (checkAndAddPage g y).2 = y := by
  simp [checkAndAddPage, h]

/-- An Except value that is never an error is a success. -/
theorem exists_ok_of_ne_error {α : Type} (x : Except String α)
    (h : ∀ er, x ≠ .error er) : ∃ v, x = .ok v := by
  cases x with
  | error er => exact absurd rfl (h er)
  | ok v => exact ⟨v, rfl⟩

/-- The date-range drawing step never fails under a total oracle. -/
theorem dateEvsE_lift_ne_error (m : TotalTextMetrics) (g : PageGeometry)
    (dt : String) (y : Coord) (er : String) :
    dateEvsE m.lift g dt y ≠ .error er := by
  intro h
  simp only [dateEvsE, lift_width] at h
  split at h <;> cases h

/-- The description step never fails under a total oracle. -/
theorem descStepE_lift_ne_error (m : TotalTextMetrics) (st : TemplateStyle)
    (g : PageGeometry) (d : Option String) (y : Coord) (er : String) :
    descStepE m.lift st g d y ≠ .error er := by
  intro h
  simp only [descStepE, lift_split] at h
  split at h <;> cases h

/-- The bullet loop never fails under a total oracle. -/
theorem layoutBullets_lift_ne_error (m : TotalTextMetrics) (st : TemplateStyle)
    (g : PageGeometry) :
    ∀ (hs : List String) (y : Coord) (er : String),
      layoutBullets m.lift st g hs y ≠ .error er := by
  intro hs
  induction hs with
  | nil => intro y er h; cases h
  | cons h0 rest ih =>
      intro y er h
      simp only [layoutBullets, lift_split] at h
      split at h
      · rename_i heq; exact ih _ _ heq
      · cases h

/-- An experience entry never fails under a total oracle. -/
theorem layoutExperienceEntry_lift_ne_error (m : TotalTextMetrics)
    (st : TemplateStyle) (g : PageGeometry) (e : ExperienceItem) (y : Coord)
    (er : String) : layoutExperienceEntry m.lift st g e y ≠ .error er := by
  intro h
  simp only [layoutExperienceEntry] at h
  split at h
  · rename_i heq; exact dateEvsE_lift_ne_error _ _ _ _ _ heq
  · split at h
    · rename_i heq; exact descStepE_lift_ne_error _ _ _ _ _ _ heq
    · split at h
      · rename_i heq; exact layoutBullets_lift_ne_error _ _ _ _ _ _ heq
      · cases h

/-- The experience entry loop never fails under a total oracle. -/
theorem layoutExperienceEntries_lift_ne_error (m : TotalTextMetrics)
    (st : TemplateStyle) (g : PageGeometry) :
    ∀ (l : List ExperienceItem) (y : Coord) (er : String),
      layoutExperienceEntries m.lift st g l y ≠ .error er := by
  intro l
  induction l with
  | nil => intro y er h; cases h
  | cons e rest ih =>
      intro y er h
      simp only [layoutExperienceEntries] at h
      split at h
      · rename_i heq; exact layoutExperienceEntry_lift_ne_error _ _ _ _ _ _ heq
      · split at h
        · rename_i heq; exact ih _ _ heq
        · cases h

/-- The experience section never fails under a total oracle. -/
theorem layoutExperience_lift_ne_error (m : TotalTextMetrics)
    (st : TemplateStyle) (g : PageGeometry)
    (exps : Option (List ExperienceItem)) (y : Coord) (er : String) :
    layoutExperience m.lift st g exps y ≠ .error er := by
  intro h
  cases exps with
  | none => cases h
  | some l =>
      simp only [layoutExperience] at h
      split at h
      · split at h
        · rename_i heq; exact layoutExperienceEntries_lift_ne_error _ _ _ _ _ _ heq
        · cases h
      · cases h

/-- An education entry never fails under a total oracle. -/
theorem layoutEducationEntry_lift_ne_error (m : TotalTextMetrics)
    (st : TemplateStyle) (g : PageGeometry) (e : EducationItem) (y : Coord)
    (er : String) : layoutEducationEntry m.lift st g e y ≠ .error er := by
  intro h
  simp only [layoutEducationEntry] at h
  split at h
  · rename_i heq; exact dateEvsE_lift_ne_error _ _ _ _ _ heq
  · split at h
    · rename_i heq; exact descStepE_lift_ne_error _ _ _ _ _ _ heq
    · cases h

/-- The education entry loop never fails under a total oracle. -/
theorem layoutEducationEntries_lift_ne_error (m : TotalTextMetrics)
    (st : TemplateStyle) (g : PageGeometry) :
    ∀ (l : List EducationItem) (y : Coord) (er : String),
      layoutEducationEntries m.lift st g l y ≠ .error er := by
  intro l
  induction l with
  | nil => intro y er h; cases h
  | cons e rest ih =>
      intro y er h
      simp only [layoutEducationEntries] at h
      split at h
      · rename_i heq; exact layoutEducationEntry_lift_ne_error _ _ _ _ _ _ heq
      · split at h
        · rename_i heq; exact ih _ _ heq
        · cases h

/-- The education section never fails under a total oracle. -/
theorem layoutEducation_lift_ne_error (m : TotalTextMetrics)
    (st : TemplateStyle) (g : PageGeometry)
    (edus : Option (List EducationItem)) (y : Coord) (er : String) :
    layoutEducation m.lift st g edus y ≠ .error er := by
  intro h
  cases edus with
  | none => cases h
  | some l =>
      simp only [layoutEducation] at h
      split at h
      · split at h
        · rename_i heq; exact layoutEducationEntries_lift_ne_error _ _ _ _ _ _ heq
        · cases h
      · cases h

/-- The skill group loop never fails under a total oracle. -/
theorem layoutSkillGroups_lift_ne_error (m : TotalTextMetrics)
    (st : TemplateStyle) (g : PageGeometry) :
    ∀ (l : List (String × List String)) (y : Coord) (er : String),
      layoutSkillGroups m.lift st g l y ≠ .error er := by
  intro l
  induction l with
  | nil => intro y er h; cases h
  | cons p rest ih =>
      intro y er h
      obtain ⟨cat, names⟩ := p
      simp only [layoutSkillGroups, lift_split] at h
      split at h
      · rename_i heq; exact ih _ _ heq
      · cases h

/-- The skills section never fails under a total oracle. -/
theorem layoutSkills_lift_ne_error (m : TotalTextMetrics) (st : TemplateStyle)
    (g : PageGeometry) (skills : Option (List SkillItem)) (y : Coord)
    (er : String) : layoutSkills m.lift st g skills y ≠ .error er := by
  intro h
  cases skills with
  | none => cases h
  | some l =>
      simp only [layoutSkills] at h
      split at h
      · split at h
        · rename_i heq; exact layoutSkillGroups_lift_ne_error _ _ _ _ _ _ heq
        · cases h
      · cases h

/-- The summary section never fails under a total oracle. -/
theorem layoutSummary_lift_ne_error (m : TotalTextMetrics) (st : TemplateStyle)
    (g : PageGeometry) (pinfo : PersonalInfo) (y : Coord) (er : String) :
    layoutSummary m.lift st g pinfo y ≠ .error er := by
  intro h
  simp only [layoutSummary, lift_split] at h
  split at h <;> cases h

/-- The full layout pass never fails under a total oracle. -/
theorem layoutResume_lift_ne_error (m : TotalTextMetrics) (st : TemplateStyle)
    (g : PageGeometry) (c : ResumeContent) (er : String) :
    layoutResume m.lift st g c ≠ .error er := by
  intro h
  simp only [layoutResume] at h
  split at h
  · rename_i heq; exact layoutSummary_lift_ne_error _ _ _ _ _ _ heq
  · split at h
    · rename_i heq; exact layoutExperience_lift_ne_error _ _ _ _ _ _ heq
    · split at h
      · rename_i heq; exact layoutEducation_lift_ne_error _ _ _ _ _ _ heq
      · split at h
        · rename_i heq; exact layoutSkills_lift_ne_error _ _ _ _ _ _ heq
        · cases h

/-- The full layout pass succeeds under a total oracle. -/
theorem layoutResume_lift_isOk (m : TotalTextMetrics) (st : TemplateStyle)
    (g : PageGeometry) (c : ResumeContent) :
    ∃ evs, layoutResume m.lift st g c = .ok evs :=
  exists_ok_of_ne_error _ (layoutResume_lift_ne_error m st g c)

/-- Rendering the pages succeeds under a total oracle. -/
theorem renderPages_lift_isOk (m : TotalTextMetrics) (r : Resume) :
    ∃ pages, renderPages m.lift r = .ok pages := by
  obtain ⟨evs, h⟩ := layoutResume_lift_isOk m (resolveStyle r.template)
    a4Geometry r.content
  exact ⟨_, by simp only [renderPages]; rw [h]⟩

/-- The whole export succeeds under a total oracle. -/
theorem generateResumePDF_lift_isOk (m : TotalTextMetrics) (r : Resume) :
    ∃ out, generateResumePDF m.lift r = .ok out := by
  obtain ⟨pages, h⟩ := renderPages_lift_isOk m r
  exact ⟨_, by simp only [generateResumePDF, generateBody]; rw [h]; rfl⟩

/-- A skipped summary section: not truthy means no events and an unchanged
cursor. -/
theorem layoutSummary_of_not_truthy (m : TextMetrics) (st : TemplateStyle)
    (g : PageGeometry) (pinfo : PersonalInfo) (y : Coord)
    (h : strTruthy pinfo.summary = false) :
    layoutSummary m st g pinfo y = .ok ([], y) := by
  simp [layoutSummary, h]

/-- A skipped experience section: an absent or empty list means no events
and an unchanged cursor. -/
theorem layoutExperience_of_empty (m : TextMetrics) (st : TemplateStyle)
    (g : PageGeometry) (exps : Option (List ExperienceItem)) (y : Coord)
    (h : exps.getD [] = []) :
    layoutExperience m st g exps y = .ok ([], y) := by
  match exps with
  | none => rfl
  | some l => simp at h; simp [layoutExperience, h]

/-- A skipped education section. -/
theorem layoutEducation_of_empty (m : TextMetrics) (st : TemplateStyle)
    (g : PageGeometry) (edus : Option (List EducationItem)) (y : Coord)
    (h : edus.getD [] = []) :
    layoutEducation m st g edus y = .ok ([], y) := by
  match edus with
  | none => rfl
  | some l => simp at h; simp [layoutEducation, h]

/-- A skipped skills section. -/
theorem layoutSkills_of_empty (m : TextMetrics) (st : TemplateStyle)
    (g : PageGeometry) (skills : Option (List SkillItem)) (y : Coord)
    (h : skills.getD [] = []) :
    layoutSkills m st g skills y = .ok ([], y) := by
  match skills with
  | none => rfl
  | some l => simp at h; simp [layoutSkills, h]

/-- Successful layout factors into the blocks in source order: header,
contact line, divider, summary, experience, education, skills. -/
theorem layoutResume_ok_factor (m : TextMetrics) (st : TemplateStyle)
    (g : PageGeometry) (c : ResumeContent) (evs : List Ev)
    (hres : layoutResume m st g c = .ok evs) :
    ∃ sEvs y3 eEvs y4 edEvs y5 skEvs y6,
      layoutSummary m st g c.personalInfo (g.margin + 25 + 10) = .ok (sEvs, y3) ∧
      layoutExperience m st g c.experience y3 = .ok (eEvs, y4) ∧
      layoutEducation m st g c.education y4 = .ok (edEvs, y5) ∧
      layoutSkills m st g c.skills y5 = .ok (skEvs, y6) ∧
      evs = (layoutHeader g c.personalInfo g.margin).1 ++
            contactLine g c.personalInfo (g.margin + 25) ++
            [Ev.draw (DrawItem.rule g.margin (g.margin + 25 + 10)
              (g.pageWidth - g.margin) (g.margin + 25 + 10))] ++
            sEvs ++ eEvs ++ edEvs ++ skEvs := by
  have hh : (layoutHeader g c.personalInfo g.margin).2 = g.margin + 25 := rfl
  simp only [layoutResume, hh] at hres
  split at hres
  · cases hres
  · rename_i sEvs y3 hSum
    split at hres
    · cases hres
    · rename_i eEvs y4 hExp
      split at hres
      · cases hres
      · rename_i edEvs y5 hEdu
        split at hres
        · cases hres
        · rename_i skEvs y6 hSk
          simp only [Except.ok.injEq] at hres
          exact ⟨sEvs, y3, eEvs, y4, edEvs, y5, skEvs, y6,
            hSum, hExp, hEdu, hSk, hres.symm⟩

/-- An event list without page breaks replays into a single page holding
its drawn items. -/
theorem pagesOf_of_no_newPage :
    ∀ (evs : List Ev), Ev.newPage ∉ evs → pagesOf evs = [drawsOf evs] := by
  intro evs
  induction evs with
  | nil => intro _; rfl
  | cons e rest ih =>
      intro h
      cases e with
      | draw it =>
          have hr : Ev.newPage ∉ rest := fun hm => h (List.mem_cons_of_mem _ hm)
          simp [pagesOf, drawsOf, ih hr]
      | newPage => exact absurd (List.mem_cons_self _ _) h

/-- Stamping preserves the number of pages. -/
theorem stampAux_length (g : PageGeometry) (n : Nat) :
    ∀ (ps : List (List DrawItem)) (i : Nat), (stampAux g n i ps).length = ps.length := by
  intro ps
  induction ps with
  | nil => intro i; rfl
  | cons p rest ih => intro i; simp [stampAux, ih]

/-- Page k of the stamped document is page k of the layout with its footer
appended. -/
theorem stampAux_get (g : PageGeometry) (n : Nat) :
    ∀ (ps : List (List DrawItem)) (i k : Nat) (h : k < ps.length)
      (h2 : k < (stampAux g n i ps).length),
      (stampAux g n i ps).get ⟨k, h2⟩ =
        ps.get ⟨k, h⟩ ++ [pageNumberFooter g (i + k + 1) n] := by
  intro ps
  induction ps with
  | nil => intro i k h h2; exact absurd h (by simp)
  | cons p rest ih =>
      intro i k h h2
      cases k with
      | zero => rfl
      | succ k0 =>
          have h3 : k0 < rest.length := by simpa using h
          have h4 : k0 < (stampAux g n (i + 1) rest).length := by
            rw [stampAux_length]; exact h3
          have hrec := ih (i + 1) k0 h3 h4
          rw [show i + 1 + k0 + 1 = i + (k0 + 1) + 1 by omega] at hrec
          exact hrec

/-- Each stamped page is the layout page with a footer naming its 1-based
index and the total page count. -/
theorem stampPageNumbers_get (g : PageGeometry) (ps : List (List DrawItem))
    (k : Nat) (h : k < ps.length) (h2 : k < (stampPageNumbers g ps).length) :
    (stampPageNumbers g ps).get ⟨k, h2⟩ =
      ps.get ⟨k, h⟩ ++ [pageNumberFooter g (k + 1) ps.length] := by
  have := stampAux_get g ps.length ps 0 k h h2
  simpa using this

/-- Stamping preserves the page count. -/
theorem stampPageNumbers_length (g : PageGeometry) (ps : List (List DrawItem)) :
    (stampPageNumbers g ps).length = ps.length :=
  stampAux_length g ps.length ps 0

/-- The header block draws text only, never a page break. -/
theorem newPage_not_mem_layoutHeader (g : PageGeometry) (pinfo : PersonalInfo)
    (y : Coord) : Ev.newPage ∉ (layoutHeader g pinfo y).1 := by
  simp [layoutHeader]

/-- The contact loop draws text only, never a page break. -/
theorem newPage_not_mem_contactLineAux (g : PageGeometry) (n : Coord)
    (y : Coord) :
    ∀ (l : List (String × String)) (i : Nat),
      Ev.newPage ∉ contactLineAux g n y i l := by
  intro l
  induction l with
  | nil => intro i; simp [contactLineAux]
  | cons p rest ih =>
      intro i
      simp only [contactLineAux, List.mem_cons]
      rintro (h | h)
      · cases h
      · exact ih (i + 1) h

/-- The contact line draws text only, never a page break. -/
theorem newPage_not_mem_contactLine (g : PageGeometry) (pinfo : PersonalInfo)
    (y : Coord) : Ev.newPage ∉ contactLine g pinfo y :=
  newPage_not_mem_contactLineAux g _ y _ 0

/-- A successful date-range step draws text only, never a page break. -/
theorem newPage_not_mem_dateEvsE_ok (m : TextMetrics) (g : PageGeometry)
    (dt : String) (y : Coord) (v : List Ev) (h : dateEvsE m g dt y = .ok v) :
    Ev.newPage ∉ v := by
  simp only [dateEvsE] at h
  split at h
  · cases h; simp
  · split at h
    · cases h
    · cases h; simp

/-- The location step draws text only, never a page break. -/
theorem newPage_not_mem_locationStep (g : PageGeometry) (loc : Option String)
    (y : Coord) : Ev.newPage ∉ (locationStep g loc y).1 := by
  by_cases h : strTruthy loc <;> simp [locationStep, h]

/-- A successful description step draws text only, never a page break. -/
theorem newPage_not_mem_descStepE_ok (m : TextMetrics) (st : TemplateStyle)
    (g : PageGeometry) (d : Option String) (y : Coord) (evs : List Ev)
    (y2 : Coord) (h : descStepE m st g d y = .ok (evs, y2)) :
    Ev.newPage ∉ evs := by
  simp only [descStepE] at h
  split at h
  · split at h
    · cases h
    · cases h; simp
  · cases h; simp

/-- The bullet loop on an empty highlight list does nothing. -/
theorem layoutBullets_nil (m : TextMetrics) (st : TemplateStyle)
    (g : PageGeometry) (y : Coord) :
    layoutBullets m st g [] y = .ok ([], y) := rfl

/-! ### Concrete fixtures used by counterexamples and witnesses -/

/-- A total oracle that wraps every string to a single line. -/
def mTot : TotalTextMetrics :=
  ⟨fun s _ => [s], fun _ => 30, fun _ => "doc"⟩

/-- A total oracle wrapping the strings S and D into 100 lines and D5 into
5 lines, everything else into a single line. -/
def mBig : TotalTextMetrics :=
  ⟨fun s _ =>
      if s = "S" ∨ s = "D" then List.replicate 100 s
      else if s = "D5" then List.replicate 5 s
      else [s],
   fun _ => 30, fun _ => "doc"⟩

/-- An oracle whose measurement and encoding facilities always fail. -/
def mFail : TextMetrics :=
  ⟨fun _ _ => .error "measurement failed", fun _ => .error "measurement failed",
   fun _ => .error "encoding failed"⟩

/-- Personal info holding only a full name. -/
def janePersonal : PersonalInfo :=
  ⟨some "Jane Doe", none, none, none, none, none, none⟩

/-- Content with all optional sections absent. -/
def janeContent : ResumeContent := ⟨janePersonal, none, none, none⟩

/-- A stored resume holding the empty content. -/
def janeResume : Resume := ⟨1, 1, "Jane resume", "modern", janeContent, 0, none⟩

/-- Personal info with a summary that the mBig oracle wraps to 100 lines. -/
def summaryPersonal : PersonalInfo :=
  ⟨some "J", none, none, none, none, none, some "S"⟩

/-- Content holding only the long summary. -/
def summaryContent : ResumeContent := ⟨summaryPersonal, none, none, none⟩

/-- One experience entry whose description the mBig oracle wraps to 100
lines; no highlights. -/
def bigEntry : ExperienceItem :=
  ⟨"e1", some "T", some "C", none, none, none, false, some "D", none⟩

/-- One experience entry whose description the mBig oracle wraps to 5
lines. -/
def fiveLineEntry : ExperienceItem :=
  ⟨"e", some "T", some "C", none, none, none, false, some "D5", none⟩

/-- Twenty five-line experience entries, the example of the spec. -/
def twentyContent : ResumeContent :=
  ⟨janePersonal, some (List.replicate 20 fiveLineEntry), none, none⟩

/-- An experience entry with no title and no company. -/
def anonymousEntry : ExperienceItem :=
  ⟨"e2", none, none, none, none, none, false, none, none⟩

/-- An education entry with no institution. -/
def anonymousEducation : EducationItem :=
  ⟨"d1", none, none, none, none, none, none, false, none⟩

/-- A single skill with no category (grouped under Other). -/
def leanSkill : SkillItem := ⟨"s1", "Lean", none, none⟩

/-- With the cursor past the bottom margin the check adds a page. -/
theorem checkAndAddPage_of_gt (g : PageGeometry) (y : Coord)
    (h : y > g.pageHeight - g.margin) :
    checkAndAddPage g y = ([Ev.newPage], g.margin + 10) := by
  simp [checkAndAddPage, h]

/-- With the cursor not past the bottom margin the check does nothing. -/
theorem checkAndAddPage_of_ngt (g : PageGeometry) (y : Coord)
    (h : ¬ y > g.pageHeight - g.margin) :
    checkAndAddPage g y = ([], y) := by
  simp [checkAndAddPage, h]

/-! ### Claims -/

/-- Claim C1, counterexample: on content whose summary wraps to 100 lines
(500mm of text at 5mm line spacing), the engine draws the whole block at
cursor 67 without any page break although the remaining space on the page
(215mm) is smaller than the measured wrapped height, so the drawn content
extends past the bottom margin; the engine never measures a block before
deciding on a page break. -/
theorem claim_C1_counterexample :
    ∃ evs, layoutResume mBig.lift modernStyle a4Geometry summaryContent = .ok evs ∧
      Ev.newPage ∉ evs ∧
      Ev.draw (DrawItem.text (List.replicate 100 "S") 15 67) ∈ evs ∧
      a4Geometry.pageHeight - a4Geometry.margin - 67 <
        (100 : ℤ) * modernStyle.lineSpacing :=
  ⟨_, rfl, by decide, by decide, by decide⟩

/-- One step of the bullet loop: the cursor-only page-break check runs
immediately before each bullet, and the bullet is drawn at the post-check
cursor, whatever the oracle and the remaining bullets. -/
theorem layoutBullets_cons_check_prefix :
    ∀ (m : TextMetrics) (st : TemplateStyle) (g : PageGeometry)
      (h0 : String) (hs : List String) (y : Coord) (evs : List Ev) (y1 : Coord),
      layoutBullets m st g (h0 :: hs) y = .ok (evs, y1) →
      ∃ bl tail,
        m.splitTextToSize ("• " ++ h0) (g.pageWidth - 2 * g.margin - 2) = .ok bl ∧
        evs = (checkAndAddPage g y).1 ++
          [Ev.draw (DrawItem.text bl (g.margin + 2) (checkAndAddPage g y).2)] ++
          tail := by
  intro m st g h0 hs y evs y1 h
  simp only [layoutBullets] at h
  split at h
  · cases h
  · rename_i bl heq
    split at h
    · cases h
    · rename_i tail ytail htail
      cases h
      exact ⟨bl, tail, heq, rfl⟩

/-- The summary block begins with the cursor-only check: a break fires
exactly when the incoming cursor plus the section spacing has passed the
bottom margin, whatever the oracle measures, and the section restarts at
margin + 10. -/
theorem layoutSummary_check_block :
    ∀ (m : TotalTextMetrics) (st : TemplateStyle) (g : PageGeometry)
      (pinfo : PersonalInfo) (y : Coord),
      strTruthy pinfo.summary = true →
      ∃ evs yEnd, layoutSummary m.lift st g pinfo y = .ok (evs, yEnd) ∧
        ((Ev.newPage ∈ evs) ↔ y + st.sectionSpacing > g.pageHeight - g.margin) ∧
        (y + st.sectionSpacing > g.pageHeight - g.margin →
          Ev.draw (DrawItem.text ["Summary"] g.margin (g.margin + 10)) ∈ evs) := by
  intro m st g pinfo y h
  by_cases hgt : y + st.sectionSpacing > g.pageHeight - g.margin
  · have hs : layoutSummary m.lift st g pinfo y =
        .ok ([Ev.newPage,
              Ev.draw (DrawItem.text ["Summary"] g.margin (g.margin + 10)),
              Ev.draw (DrawItem.text
                (m.splitTextToSize (pinfo.summary.getD "") (g.pageWidth - 2 * g.margin))
                g.margin (g.margin + 10 + 7))],
             g.margin + 10 + 7 +
               ((m.splitTextToSize (pinfo.summary.getD "")
                 (g.pageWidth - 2 * g.margin)).length : ℤ) * st.lineSpacing +
               st.sectionSpacing) := by
      simp only [layoutSummary, h, checkAndAddPage_of_gt g _ hgt]
      rfl
    refine ⟨_, _, hs, ?_, ?_⟩
    · simp [hgt]
    · intro _; simp
  · have hs : layoutSummary m.lift st g pinfo y =
        .ok ([Ev.draw (DrawItem.text ["Summary"] g.margin (y + st.sectionSpacing)),
              Ev.draw (DrawItem.text
                (m.splitTextToSize (pinfo.summary.getD "") (g.pageWidth - 2 * g.margin))
                g.margin (y + st.sectionSpacing + 7))],
             y + st.sectionSpacing + 7 +
               ((m.splitTextToSize (pinfo.summary.getD "")
                 (g.pageWidth - 2 * g.margin)).length : ℤ) * st.lineSpacing +
               st.sectionSpacing) := by
      simp only [layoutSummary, h, checkAndAddPage_of_ngt g _ hgt]
      rfl
    refine ⟨_, _, hs, ?_, ?_⟩
    · simp [hgt]
    · intro hx; exact absurd hx hgt

/-- Claim C1, amended: every checked block — the summary, the experience,
education and skills section starts, each experience and education entry,
each bullet, each skills group — begins with the cursor-only test of
checkAndAddPage, which emits a break exactly when the incoming cursor has
already passed pageHeight - margin and then restarts at margin + 10 (not
the top margin); the block's first item is drawn at the post-check cursor,
independent of the measurement oracle and of the block's wrapped height. -/
theorem claim_C1_amended :
    (∀ (g : PageGeometry) (y : Coord),
      ((Ev.newPage ∈ (checkAndAddPage g y).1) ↔ y > g.pageHeight - g.margin) ∧
      (checkAndAddPage g y).2 =
        (if y > g.pageHeight - g.margin then g.margin + 10 else y)) ∧
    (∀ (m : TotalTextMetrics) (st : TemplateStyle) (g : PageGeometry)
        (pinfo : PersonalInfo) (y : Coord),
      strTruthy pinfo.summary = true →
      ∃ evs yEnd, layoutSummary m.lift st g pinfo y = .ok (evs, yEnd) ∧
        ((Ev.newPage ∈ evs) ↔ y + st.sectionSpacing > g.pageHeight - g.margin) ∧
        (y + st.sectionSpacing > g.pageHeight - g.margin →
          Ev.draw (DrawItem.text ["Summary"] g.margin (g.margin + 10)) ∈ evs)) ∧
    (∀ (m : TextMetrics) (st : TemplateStyle) (g : PageGeometry)
        (l : List ExperienceItem) (y : Coord) (evs : List Ev) (y2 : Coord),
      0 < l.length →
      layoutExperience m st g (some l) y = .ok (evs, y2) →
      ∃ rest, evs = (checkAndAddPage g y).1 ++
        [Ev.draw (DrawItem.text ["Experience"] g.margin
          (checkAndAddPage g y).2)] ++ rest) ∧
    (∀ (m : TextMetrics) (st : TemplateStyle) (g : PageGeometry)
        (e : ExperienceItem) (y : Coord) (evs : List Ev) (yEnd : Coord),
      layoutExperienceEntry m st g e y = .ok (evs, yEnd) →
      ∃ rest, evs = (checkAndAddPage g y).1 ++
        [Ev.draw (DrawItem.text [strOrElse e.title "Position"] g.margin
          (checkAndAddPage g y).2),
         Ev.draw (DrawItem.text [strOrElse e.company "Company"] g.margin
          ((checkAndAddPage g y).2 + 5))] ++ rest) ∧
    (∀ (m : TextMetrics) (st : TemplateStyle) (g : PageGeometry)
        (h0 : String) (hs : List String) (y : Coord) (evs : List Ev) (y1 : Coord),
      layoutBullets m st g (h0 :: hs) y = .ok (evs, y1) →
      ∃ bl tail,
        m.splitTextToSize ("• " ++ h0) (g.pageWidth - 2 * g.margin - 2) = .ok bl ∧
        evs = (checkAndAddPage g y).1 ++
          [Ev.draw (DrawItem.text bl (g.margin + 2) (checkAndAddPage g y).2)] ++
          tail) ∧
    (∀ (m : TextMetrics) (st : TemplateStyle) (g : PageGeometry)
        (l : List EducationItem) (y : Coord) (evs : List Ev) (y2 : Coord),
      0 < l.length →
      layoutEducation m st g (some l) y = .ok (evs, y2) →
      ∃ rest, evs = (checkAndAddPage g y).1 ++
        [Ev.draw (DrawItem.text ["Education"] g.margin
          (checkAndAddPage g y).2)] ++ rest) ∧
    (∀ (m : TextMetrics) (st : TemplateStyle) (g : PageGeometry)
        (e : EducationItem) (y : Coord) (evs : List Ev) (yEnd : Coord),
      layoutEducationEntry m st g e y = .ok (evs, yEnd) →
      ∃ rest, evs = (checkAndAddPage g y).1 ++
        [Ev.draw (DrawItem.text [strOrElse e.institution "Institution"] g.margin
          (checkAndAddPage g y).2)] ++ rest) ∧
    (∀ (m : TextMetrics) (st : TemplateStyle) (g : PageGeometry)
        (l : List SkillItem) (y : Coord) (evs : List Ev) (y2 : Coord),
      0 < l.length →
      layoutSkills m st g (some l) y = .ok (evs, y2) →
      ∃ rest, evs = (checkAndAddPage g y).1 ++
        [Ev.draw (DrawItem.text ["Skills"] g.margin
          (checkAndAddPage g y).2)] ++ rest) ∧
    (∀ (m : TextMetrics) (st : TemplateStyle) (g : PageGeometry)
        (cat : String) (names : List String) (gs : List (String × List String))
        (y : Coord) (evs : List Ev) (y2 : Coord),
      layoutSkillGroups m st g ((cat, names) :: gs) y = .ok (evs, y2) →
      ∃ rest, evs = (checkAndAddPage g y).1 ++ rest) := by
  refine ⟨?_, ?_, ?_, ?_, layoutBullets_cons_check_prefix, ?_, ?_, ?_, ?_⟩
  · intro g y
    refine ⟨newPage_mem_checkAndAddPage g y, ?_⟩
    by_cases h : y > g.pageHeight - g.margin <;> simp [checkAndAddPage, h]
  · intro m st g pinfo y h
    exact layoutSummary_check_block m st g pinfo y h
  · intro m st g l y evs y2 hl h
    simp only [layoutExperience] at h
    split at h
    · split at h
      · cases h
      · rename_i evs2 y22 he
        cases h
        exact ⟨evs2, by simp only [addSectionTitle, List.append_assoc]⟩
    · rename_i hcond
      exact absurd hl hcond
  · intro m st g e y evs yEnd h
    simp only [layoutExperienceEntry] at h
    split at h
    · cases h
    · rename_i dateEvs hdate
      split at h
      · cases h
      · rename_i descEvs y2 hdesc
        split at h
        · cases h
        · rename_i bEvs y3 hb
          cases h
          exact ⟨_, by simp only [List.append_assoc]; rfl⟩
  · intro m st g l y evs y2 hl h
    simp only [layoutEducation] at h
    split at h
    · split at h
      · cases h
      · rename_i evs2 y22 he
        cases h
        exact ⟨evs2, by simp only [addSectionTitle, List.append_assoc]⟩
    · rename_i hcond
      exact absurd hl hcond
  · intro m st g e y evs yEnd h
    simp only [layoutEducationEntry] at h
    split at h
    · cases h
    · rename_i dateEvs hdate
      split at h
      · cases h
      · rename_i descEvs y2 hdesc
        cases h
        exact ⟨_, by simp only [List.append_assoc]; rfl⟩
  · intro m st g l y evs y2 hl h
    simp only [layoutSkills] at h
    split at h
    · split at h
      · cases h
      · rename_i evs2 y22 he
        cases h
        exact ⟨evs2, by simp only [addSectionTitle, List.append_assoc]⟩
    · rename_i hcond
      exact absurd hl hcond
  · intro m st g cat names gs y evs y2 h
    simp only [layoutSkillGroups] at h
    split at h
    · cases h
    · rename_i sl heq
      split at h
      · cases h
      · rename_i evs2 y22 he
        cases h
        exact ⟨_, by simp only [List.append_assoc]; rfl⟩

/-- Claim C1, witness: each checked block instantiated concretely — the
summary check fires at cursor 280 (280 + 10 > 282) and restarts at 25; the
section starts, entries, a bullet and a skills group all begin with their
boundary check at concrete cursors. -/
theorem claim_C1_witness :
    (∃ evs yEnd,
      layoutSummary mTot.lift modernStyle a4Geometry summaryPersonal 280 =
        .ok (evs, yEnd) ∧
      ((Ev.newPage ∈ evs) ↔
        (280 : ℤ) + modernStyle.sectionSpacing >
          a4Geometry.pageHeight - a4Geometry.margin) ∧
      ((280 : ℤ) + modernStyle.sectionSpacing >
          a4Geometry.pageHeight - a4Geometry.margin →
        Ev.draw (DrawItem.text ["Summary"] a4Geometry.margin
          (a4Geometry.margin + 10)) ∈ evs)) ∧
    (∃ rest, [Ev.draw (DrawItem.text ["Experience"] 15 50),
              Ev.draw (DrawItem.text ["T"] 15 57),
              Ev.draw (DrawItem.text ["C"] 15 62),
              Ev.draw (DrawItem.text ["D"] 15 67)] =
      (checkAndAddPage a4Geometry 50).1 ++
        [Ev.draw (DrawItem.text ["Experience"] a4Geometry.margin
          (checkAndAddPage a4Geometry 50).2)] ++ rest) ∧
    (∃ rest, [Ev.draw (DrawItem.text ["T"] 15 60),
              Ev.draw (DrawItem.text ["C"] 15 65),
              Ev.draw (DrawItem.text ["D"] 15 70)] =
      (checkAndAddPage a4Geometry 60).1 ++
        [Ev.draw (DrawItem.text [strOrElse bigEntry.title "Position"]
          a4Geometry.margin (checkAndAddPage a4Geometry 60).2),
         Ev.draw (DrawItem.text [strOrElse bigEntry.company "Company"]
          a4Geometry.margin ((checkAndAddPage a4Geometry 60).2 + 5))] ++ rest) ∧
    (∃ bl tail,
      mTot.lift.splitTextToSize ("• " ++ "H")
        (a4Geometry.pageWidth - 2 * a4Geometry.margin - 2) = .ok bl ∧
      [Ev.draw (DrawItem.text ["• H"] 17 60)] =
        (checkAndAddPage a4Geometry 60).1 ++
          [Ev.draw (DrawItem.text bl (a4Geometry.margin + 2)
            (checkAndAddPage a4Geometry 60).2)] ++ tail) ∧
    (∃ rest, [Ev.draw (DrawItem.text ["Education"] 15 50),
              Ev.draw (DrawItem.text ["Institution"] 15 57)] =
      (checkAndAddPage a4Geometry 50).1 ++
        [Ev.draw (DrawItem.text ["Education"] a4Geometry.margin
          (checkAndAddPage a4Geometry 50).2)] ++ rest) ∧
    (∃ rest, [Ev.draw (DrawItem.text ["Institution"] 15 60)] =
      (checkAndAddPage a4Geometry 60).1 ++
        [Ev.draw (DrawItem.text [strOrElse anonymousEducation.institution
          "Institution"] a4Geometry.margin (checkAndAddPage a4Geometry 60).2)] ++
        rest) ∧
    (∃ rest, [Ev.draw (DrawItem.text ["Skills"] 15 50),
              Ev.draw (DrawItem.text ["Lean"] 15 57)] =
      (checkAndAddPage a4Geometry 50).1 ++
        [Ev.draw (DrawItem.text ["Skills"] a4Geometry.margin
          (checkAndAddPage a4Geometry 50).2)] ++ rest) ∧
    (∃ rest, [Ev.draw (DrawItem.text ["Lean"] 15 57)] =
      (checkAndAddPage a4Geometry 57).1 ++ rest) :=
  ⟨claim_C1_amended.2.1 mTot modernStyle a4Geometry summaryPersonal 280
     (by decide),
   claim_C1_amended.2.2.1 mTot.lift modernStyle a4Geometry [bigEntry] 50
     [Ev.draw (DrawItem.text ["Experience"] 15 50),
      Ev.draw (DrawItem.text ["T"] 15 57),
      Ev.draw (DrawItem.text ["C"] 15 62),
      Ev.draw (DrawItem.text ["D"] 15 67)] 85 (by decide) rfl,
   claim_C1_amended.2.2.2.1 mTot.lift modernStyle a4Geometry bigEntry 60
     [Ev.draw (DrawItem.text ["T"] 15 60),
      Ev.draw (DrawItem.text ["C"] 15 65),
      Ev.draw (DrawItem.text ["D"] 15 70)] 88 rfl,
   claim_C1_amended.2.2.2.2.1 mTot.lift modernStyle a4Geometry "H" [] 60
     [Ev.draw (DrawItem.text ["• H"] 17 60)] 70 rfl,
   claim_C1_amended.2.2.2.2.2.1 mTot.lift modernStyle a4Geometry
     [anonymousEducation] 50
     [Ev.draw (DrawItem.text ["Education"] 15 50),
      Ev.draw (DrawItem.text ["Institution"] 15 57)] 77 (by decide) rfl,
   claim_C1_amended.2.2.2.2.2.2.1 mTot.lift modernStyle a4Geometry
     anonymousEducation 60
     [Ev.draw (DrawItem.text ["Institution"] 15 60)] 80 rfl,
   claim_C1_amended.2.2.2.2.2.2.2.1 mTot.lift modernStyle a4Geometry
     [leanSkill] 50
     [Ev.draw (DrawItem.text ["Skills"] 15 50),
      Ev.draw (DrawItem.text ["Lean"] 15 57)] 72 (by decide) rfl,
   claim_C1_amended.2.2.2.2.2.2.2.2 mTot.lift modernStyle a4Geometry
     "Other" ["Lean"] [] 57
     [Ev.draw (DrawItem.text ["Lean"] 15 57)] 72 rfl⟩

/-- Claim C2, counterexample: a one-entry experience list whose wrapped
height (530mm of cursor advance, more than a whole A4 page) exceeds one
page, yet the engine inserts no page break at all, because the only
check-points lie before the entry and before bullets, and the oversized
description is the last drawn block. -/
theorem claim_C2_counterexample :
    ∃ evs yEnd,
      layoutExperience mBig.lift modernStyle a4Geometry (some [bigEntry]) 50 =
        .ok (evs, yEnd) ∧
      Ev.newPage ∉ evs ∧ a4Geometry.pageHeight < yEnd - 50 :=
  ⟨_, _, rfl, by decide, by decide⟩

/-- Claim C2, amended: the page-break test is evaluated immediately before
each logical entry and before each bullet independently; an entry without
bullet highlights is never split by a break (the only possible break is
the boundary check, which fires exactly when the cursor has already passed
the bottom margin), each bullet step first runs the cursor-only check and
draws the bullet at the post-check cursor, and the twenty five-line-entry
example of the spec does span at least two pages. -/
theorem claim_C2_amended :
    (∀ (m : TotalTextMetrics) (st : TemplateStyle) (g : PageGeometry)
        (e : ExperienceItem) (y : Coord),
      e.highlights.getD [] = [] →
      ∃ evs yEnd, layoutExperienceEntry m.lift st g e y = .ok (evs, yEnd) ∧
        ((Ev.newPage ∈ evs) ↔ y > g.pageHeight - g.margin)) ∧
    (∀ (m : TextMetrics) (st : TemplateStyle) (g : PageGeometry)
        (h0 : String) (hs : List String) (y : Coord) (evs : List Ev) (y1 : Coord),
      layoutBullets m st g (h0 :: hs) y = .ok (evs, y1) →
      ∃ bl tail,
        m.splitTextToSize ("• " ++ h0) (g.pageWidth - 2 * g.margin - 2) = .ok bl ∧
        evs = (checkAndAddPage g y).1 ++
          [Ev.draw (DrawItem.text bl (g.margin + 2) (checkAndAddPage g y).2)] ++
          tail) ∧
    (∃ evs, layoutResume mBig.lift modernStyle a4Geometry twentyContent = .ok evs ∧
      2 ≤ (pagesOf evs).length) := by
  refine ⟨?_, layoutBullets_cons_check_prefix, ?_⟩
  · intro m st g e y hno
    obtain ⟨vd, hd⟩ := exists_ok_of_ne_error _
      (dateEvsE_lift_ne_error m g (dateRangeText e.startDate e.endDate e.current)
        (checkAndAddPage g y).2)
    obtain ⟨⟨descEvs, y2⟩, hdesc⟩ := exists_ok_of_ne_error _
      (descStepE_lift_ne_error m st g e.description
        (locationStep g e.location (checkAndAddPage g y).2).2)
    have hentry : layoutExperienceEntry m.lift st g e y =
        .ok ((checkAndAddPage g y).1 ++
              [Ev.draw (DrawItem.text [strOrElse e.title "Position"] g.margin
                 (checkAndAddPage g y).2),
               Ev.draw (DrawItem.text [strOrElse e.company "Company"] g.margin
                 ((checkAndAddPage g y).2 + 5))] ++
              vd ++ (locationStep g e.location (checkAndAddPage g y).2).1 ++
              descEvs ++ [],
             y2 + st.sectionSpacing) := by
      simp only [layoutExperienceEntry]
      rw [hno, hd, hdesc]
      rfl
    refine ⟨_, _, hentry, ?_⟩
    have h1 := newPage_not_mem_dateEvsE_ok m.lift g _ _ _ hd
    have h2 := newPage_not_mem_descStepE_ok m.lift st g _ _ _ _ hdesc
    have h3 := newPage_not_mem_locationStep g e.location (checkAndAddPage g y).2
    simp [List.mem_append, newPage_mem_checkAndAddPage, h1, h2, h3]
  · exact ⟨_, rfl, by decide⟩

/-- Claim C2, witness: a highlight-free entry at cursor 100 on an A4 page
takes no break, and a concrete bullet step runs its check and draws the
bullet at the post-check cursor. -/
theorem claim_C2_witness :
    (∃ evs yEnd,
      layoutExperienceEntry mTot.lift modernStyle a4Geometry bigEntry 100 =
        .ok (evs, yEnd) ∧
      ((Ev.newPage ∈ evs) ↔
        (100 : ℤ) > a4Geometry.pageHeight - a4Geometry.margin)) ∧
    (∃ bl tail,
      mTot.lift.splitTextToSize ("• " ++ "H")
        (a4Geometry.pageWidth - 2 * a4Geometry.margin - 2) = .ok bl ∧
      [Ev.draw (DrawItem.text ["• H"] 17 60)] =
        (checkAndAddPage a4Geometry 60).1 ++
          [Ev.draw (DrawItem.text bl (a4Geometry.margin + 2)
            (checkAndAddPage a4Geometry 60).2)] ++ tail) :=
  ⟨claim_C2_amended.1 mTot modernStyle a4Geometry bigEntry 100 (by decide),
   claim_C2_amended.2.1 mTot.lift modernStyle a4Geometry "H" [] 60
     [Ev.draw (DrawItem.text ["• H"] 17 60)] 70 rfl⟩

/-- Claim C3: for every successful render, the page set is the layout pages
with a second stamping pass applied, the page count is preserved, and page
k (0-based) carries the footer text naming position k + 1 and the total
page count at the fixed bottom-right position. -/
theorem claim_C3_page_numbering :
    ∀ (m : TotalTextMetrics) (r : Resume) (pages : List (List DrawItem)),
      renderPages m.lift r = .ok pages →
      ∃ evs,
        layoutResume m.lift (resolveStyle r.template) a4Geometry r.content = .ok evs ∧
        pages = stampPageNumbers a4Geometry (pagesOf evs) ∧
        pages.length = (pagesOf evs).length ∧
        ∀ (k : Nat) (h : k < pages.length), ∃ body,
          pages.get ⟨k, h⟩ =
            body ++ [pageNumberFooter a4Geometry (k + 1) pages.length] := by
  intro m r pages h
  obtain ⟨evs, hres⟩ := layoutResume_lift_isOk m (resolveStyle r.template)
    a4Geometry r.content
  have hp : pages = stampPageNumbers a4Geometry (pagesOf evs) := by
    simp only [renderPages] at h
    rw [hres] at h
    have h2 : Except.ok (stampPageNumbers a4Geometry (pagesOf evs)) =
        (Except.ok pages : Except String (List (List DrawItem))) := h
    injection h2 with h3
    exact h3.symm
  subst hp
  refine ⟨evs, hres, rfl, stampPageNumbers_length a4Geometry (pagesOf evs), ?_⟩
  intro k hk
  have hk2 : k < (pagesOf evs).length := by
    rw [← stampPageNumbers_length a4Geometry (pagesOf evs)]; exact hk
  refine ⟨(pagesOf evs).get ⟨k, hk2⟩, ?_⟩
  rw [stampPageNumbers_get a4Geometry (pagesOf evs) k hk2 hk,
    stampPageNumbers_length a4Geometry (pagesOf evs)]

/-- Claim C3, witness: the one-page empty resume carries the footer naming
page 1 of 1. -/
theorem claim_C3_witness :
    ∃ evs,
      layoutResume mTot.lift (resolveStyle janeResume.template) a4Geometry
        janeResume.content = .ok evs ∧
      [[DrawItem.text ["Jane Doe"] 15 25,
        DrawItem.text ["Professional Title"] 15 33,
        DrawItem.rule 15 50 195 50,
        DrawItem.text ["Page 1 of 1"] 175 282]] =
        stampPageNumbers a4Geometry (pagesOf evs) ∧
      ([[DrawItem.text ["Jane Doe"] 15 25,
        DrawItem.text ["Professional Title"] 15 33,
        DrawItem.rule 15 50 195 50,
        DrawItem.text ["Page 1 of 1"] 175 282]] :
          List (List DrawItem)).length = (pagesOf evs).length ∧
      ∀ (k : Nat)
        (h : k < ([[DrawItem.text ["Jane Doe"] 15 25,
          DrawItem.text ["Professional Title"] 15 33,
          DrawItem.rule 15 50 195 50,
          DrawItem.text ["Page 1 of 1"] 175 282]] :
            List (List DrawItem)).length), ∃ body,
        ([[DrawItem.text ["Jane Doe"] 15 25,
          DrawItem.text ["Professional Title"] 15 33,
          DrawItem.rule 15 50 195 50,
          DrawItem.text ["Page 1 of 1"] 175 282]] :
            List (List DrawItem)).get ⟨k, h⟩ =
          body ++ [pageNumberFooter a4Geometry (k + 1)
            ([[DrawItem.text ["Jane Doe"] 15 25,
              DrawItem.text ["Professional Title"] 15 33,
              DrawItem.rule 15 50 195 50,
              DrawItem.text ["Page 1 of 1"] 175 282]] :
                List (List DrawItem)).length] :=
  claim_C3_page_numbering mTot janeResume
    [[DrawItem.text ["Jane Doe"] 15 25,
      DrawItem.text ["Professional Title"] 15 33,
      DrawItem.rule 15 50 195 50,
      DrawItem.text ["Page 1 of 1"] 175 282]] rfl

/-- Claim C4, counterexample: for the content holding only the name Jane
Doe, the single rendered page contains, beyond the header block, the
divider rule and the page-number footer (and the placeholder professional
title), so the page does not consist of the header block and contact line
alone. -/
theorem claim_C4_counterexample :
    ∃ p, renderPages mTot.lift janeResume = .ok [p] ∧
      DrawItem.rule 15 50 195 50 ∈ p ∧
      DrawItem.text ["Page 1 of 1"] 175 282 ∈ p :=
  ⟨_, rfl, by decide, by decide⟩

/-- Claim C4, amended: content with no truthy summary and absent or empty
experience, education and skills renders exactly one page holding the
header block (with placeholders for missing name or title), the contact
line, the divider rule, and the page-number footer; no section is drawn. -/
theorem claim_C4_amended :
    ∀ (m : TotalTextMetrics) (r : Resume),
      strTruthy r.content.personalInfo.summary = false →
      r.content.experience.getD [] = [] →
      r.content.education.getD [] = [] →
      r.content.skills.getD [] = [] →
      ∃ evs,
        layoutResume m.lift (resolveStyle r.template) a4Geometry r.content = .ok evs ∧
        evs = (layoutHeader a4Geometry r.content.personalInfo 15).1 ++
              contactLine a4Geometry r.content.personalInfo 40 ++
              [Ev.draw (DrawItem.rule 15 50 195 50)] ∧
        renderPages m.lift r =
          .ok [drawsOf evs ++ [pageNumberFooter a4Geometry 1 1]] := by
  intro m r h1 h2 h3 h4
  obtain ⟨evs, hres⟩ := layoutResume_lift_isOk m (resolveStyle r.template)
    a4Geometry r.content
  obtain ⟨sEvs, y3, eEvs, y4, edEvs, y5, skEvs, y6, hS, hE, hEd, hSk, hEq⟩ :=
    layoutResume_ok_factor _ _ _ _ _ hres
  rw [layoutSummary_of_not_truthy _ _ _ _ _ h1] at hS
  rw [layoutExperience_of_empty _ _ _ _ _ h2] at hE
  rw [layoutEducation_of_empty _ _ _ _ _ h3] at hEd
  rw [layoutSkills_of_empty _ _ _ _ _ h4] at hSk
  simp only [Except.ok.injEq, Prod.mk.injEq] at hS hE hEd hSk
  have hsE : sEvs = [] := hS.1.symm
  have heE : eEvs = [] := hE.1.symm
  have hedE : edEvs = [] := hEd.1.symm
  have hskE : skEvs = [] := hSk.1.symm
  subst hsE; subst heE; subst hedE; subst hskE
  have hEvs : evs = (layoutHeader a4Geometry r.content.personalInfo 15).1 ++
      contactLine a4Geometry r.content.personalInfo 40 ++
      [Ev.draw (DrawItem.rule 15 50 195 50)] := by
    rw [hEq]; simp [a4Geometry]
  refine ⟨evs, hres, hEvs, ?_⟩
  have hnp : Ev.newPage ∉ evs := by
    rw [hEvs]
    intro hmem
    rcases List.mem_append.mp hmem with hmem1 | hmem2
    · rcases List.mem_append.mp hmem1 with hh | hc
      · exact newPage_not_mem_layoutHeader _ _ _ hh
      · exact newPage_not_mem_contactLine _ _ _ hc
    · simp at hmem2
  have hpages : pagesOf evs = [drawsOf evs] := pagesOf_of_no_newPage evs hnp
  have hrp : renderPages m.lift r =
      .ok (stampPageNumbers a4Geometry (pagesOf evs)) := by
    simp only [renderPages]; rw [hres]
  rw [hrp, hpages]
  rfl

/-- Claim C4, witness: the Jane Doe resume instantiates the amended claim. -/
theorem claim_C4_witness :
    ∃ evs,
      layoutResume mTot.lift (resolveStyle janeResume.template) a4Geometry
        janeResume.content = .ok evs ∧
      evs = (layoutHeader a4Geometry janeResume.content.personalInfo 15).1 ++
            contactLine a4Geometry janeResume.content.personalInfo 40 ++
            [Ev.draw (DrawItem.rule 15 50 195 50)] ∧
      renderPages mTot.lift janeResume =
        .ok [drawsOf evs ++ [pageNumberFooter a4Geometry 1 1]] :=
  claim_C4_amended mTot janeResume (by decide) rfl rfl rfl

/-- Claim C5: the export is a function of the resume content and template
(and the oracle) alone; two stored resumes agreeing on content and
template produce identical output, whatever their other fields. -/
theorem claim_C5_determinism :
    ∀ (m : TextMetrics) (r1 r2 : Resume),
      r1.content = r2.content → r1.template = r2.template →
      generateResumePDF m r1 = generateResumePDF m r2 := by
  intro m r1 r2 h1 h2
  simp only [generateResumePDF, generateBody, renderPages, h1, h2]

/-- A resume agreeing with the Jane Doe resume on content and template but
differing in every other stored field. -/
def janeResumeCopy : Resume :=
  ⟨2, 9, "Another stored title", "modern", janeContent, 17, some 55⟩

/-- Claim C5, witness: the two stored variants export identically. -/
theorem claim_C5_witness :
    generateResumePDF mTot.lift janeResume =
      generateResumePDF mTot.lift janeResumeCopy :=
  claim_C5_determinism mTot.lift janeResume janeResumeCopy rfl rfl

/-- Claim C6: the whole export runs in one try/catch; the result is either
the body's output unchanged or the single fixed export-failed message
(never a partial document), and a failing oracle does reach the fixed
message. -/
theorem claim_C6_failure_atomicity :
    (∀ (m : TextMetrics) (r : Resume),
      (∃ out, generateBody m r = .ok out ∧ generateResumePDF m r = .ok out) ∨
      (∃ er, generateBody m r = .error er ∧
        generateResumePDF m r =
          .error "Failed to generate PDF. Please try again.")) ∧
    generateResumePDF mFail janeResume =
      .error "Failed to generate PDF. Please try again." := by
  constructor
  · intro m r
    cases hb : generateBody m r with
    | ok out => exact Or.inl ⟨out, rfl, by simp [generateResumePDF, hb]⟩
    | error er => exact Or.inr ⟨er, rfl, by simp [generateResumePDF, hb]⟩
  · rfl

/-- A successful experience entry always draws its title line, with the
placeholder substitution applied. -/
theorem mem_title_of_entry_ok (m : TextMetrics) (st : TemplateStyle)
    (g : PageGeometry) (e : ExperienceItem) (y : Coord) (evs : List Ev)
    (yEnd : Coord) (h : layoutExperienceEntry m st g e y = .ok (evs, yEnd)) :
    Ev.draw (DrawItem.text [strOrElse e.title "Position"] g.margin
      (checkAndAddPage g y).2) ∈ evs := by
  simp only [layoutExperienceEntry] at h
  split at h
  · cases h
  · split at h
    · cases h
    · split at h
      · cases h
      · cases h; simp

/-- A successful experience entry always draws its company line, with the
placeholder substitution applied. -/
theorem mem_company_of_entry_ok (m : TextMetrics) (st : TemplateStyle)
    (g : PageGeometry) (e : ExperienceItem) (y : Coord) (evs : List Ev)
    (yEnd : Coord) (h : layoutExperienceEntry m st g e y = .ok (evs, yEnd)) :
    Ev.draw (DrawItem.text [strOrElse e.company "Company"] g.margin
      ((checkAndAddPage g y).2 + 5)) ∈ evs := by
  simp only [layoutExperienceEntry] at h
  split at h
  · cases h
  · split at h
    · cases h
    · split at h
      · cases h
      · cases h; simp

/-- A successful education entry always draws its institution line, with
the placeholder substitution applied. -/
theorem mem_institution_of_eduEntry_ok (m : TextMetrics) (st : TemplateStyle)
    (g : PageGeometry) (e : EducationItem) (y : Coord) (evs : List Ev)
    (yEnd : Coord) (h : layoutEducationEntry m st g e y = .ok (evs, yEnd)) :
    Ev.draw (DrawItem.text [strOrElse e.institution "Institution"] g.margin
      (checkAndAddPage g y).2) ∈ evs := by
  simp only [layoutEducationEntry] at h
  split at h
  · cases h
  · split at h
    · cases h
    · cases h; simp

/-- Claim C7: a missing experience title is drawn as the placeholder
Position, a missing company as Company, a missing institution as
Institution, and the engine never fails on missing optional fields: every
render with a total oracle succeeds, whatever the content. -/
theorem claim_C7_placeholders :
    (∀ (m : TotalTextMetrics) (st : TemplateStyle) (g : PageGeometry)
        (e : ExperienceItem) (y : Coord), e.title = none →
      ∃ evs yEnd, layoutExperienceEntry m.lift st g e y = .ok (evs, yEnd) ∧
        Ev.draw (DrawItem.text ["Position"] g.margin
          (checkAndAddPage g y).2) ∈ evs) ∧
    (∀ (m : TotalTextMetrics) (st : TemplateStyle) (g : PageGeometry)
        (e : ExperienceItem) (y : Coord), e.company = none →
      ∃ evs yEnd, layoutExperienceEntry m.lift st g e y = .ok (evs, yEnd) ∧
        Ev.draw (DrawItem.text ["Company"] g.margin
          ((checkAndAddPage g y).2 + 5)) ∈ evs) ∧
    (∀ (m : TotalTextMetrics) (st : TemplateStyle) (g : PageGeometry)
        (e : EducationItem) (y : Coord), e.institution = none →
      ∃ evs yEnd, layoutEducationEntry m.lift st g e y = .ok (evs, yEnd) ∧
        Ev.draw (DrawItem.text ["Institution"] g.margin
          (checkAndAddPage g y).2) ∈ evs) ∧
    (∀ (m : TotalTextMetrics) (r : Resume),
      ∃ out, generateResumePDF m.lift r = .ok out) := by
  refine ⟨?_, ?_, ?_, ?_⟩
  · intro m st g e y htitle
    obtain ⟨⟨evs, yEnd⟩, hent⟩ := exists_ok_of_ne_error _
      (layoutExperienceEntry_lift_ne_error m st g e y)
    refine ⟨evs, yEnd, hent, ?_⟩
    have hmem := mem_title_of_entry_ok m.lift st g e y evs yEnd hent
    rw [htitle] at hmem
    exact hmem
  · intro m st g e y hco
    obtain ⟨⟨evs, yEnd⟩, hent⟩ := exists_ok_of_ne_error _
      (layoutExperienceEntry_lift_ne_error m st g e y)
    refine ⟨evs, yEnd, hent, ?_⟩
    have hmem := mem_company_of_entry_ok m.lift st g e y evs yEnd hent
    rw [hco] at hmem
    exact hmem
  · intro m st g e y hinst
    obtain ⟨⟨evs, yEnd⟩, hent⟩ := exists_ok_of_ne_error _
      (layoutEducationEntry_lift_ne_error m st g e y)
    refine ⟨evs, yEnd, hent, ?_⟩
    have hmem := mem_institution_of_eduEntry_ok m.lift st g e y evs yEnd hent
    rw [hinst] at hmem
    exact hmem
  · intro m r
    exact generateResumePDF_lift_isOk m r

/-- Claim C7, witness: the anonymous entries instantiate all three
placeholder substitutions. -/
theorem claim_C7_witness :
    (∃ evs yEnd,
      layoutExperienceEntry mTot.lift modernStyle a4Geometry anonymousEntry 60 =
        .ok (evs, yEnd) ∧
      Ev.draw (DrawItem.text ["Position"] a4Geometry.margin
        (checkAndAddPage a4Geometry 60).2) ∈ evs) ∧
    (∃ evs yEnd,
      layoutExperienceEntry mTot.lift modernStyle a4Geometry anonymousEntry 60 =
        .ok (evs, yEnd) ∧
      Ev.draw (DrawItem.text ["Company"] a4Geometry.margin
        ((checkAndAddPage a4Geometry 60).2 + 5)) ∈ evs) ∧
    (∃ evs yEnd,
      layoutEducationEntry mTot.lift modernStyle a4Geometry anonymousEducation 60 =
        .ok (evs, yEnd) ∧
      Ev.draw (DrawItem.text ["Institution"] a4Geometry.margin
        (checkAndAddPage a4Geometry 60).2) ∈ evs) ∧
    (∃ out, generateResumePDF mTot.lift janeResume = .ok out) :=
  ⟨claim_C7_placeholders.1 mTot modernStyle a4Geometry anonymousEntry 60 rfl,
   claim_C7_placeholders.2.1 mTot modernStyle a4Geometry anonymousEntry 60 rfl,
   claim_C7_placeholders.2.2.1 mTot modernStyle a4Geometry anonymousEducation 60 rfl,
   claim_C7_placeholders.2.2.2 mTot janeResume⟩

/-- Claim C8: a successful layout consists of the header block, the
contact line, the divider rule, then the summary, experience, education
and skills sections in this order; a section whose content is absent or
empty contributes no events at all. -/
theorem claim_C8_render_order :
    ∀ (m : TextMetrics) (st : TemplateStyle) (g : PageGeometry)
      (c : ResumeContent) (evs : List Ev),
      layoutResume m st g c = .ok evs →
      ∃ sEvs y3 eEvs y4 edEvs y5 skEvs y6,
        layoutSummary m st g c.personalInfo (g.margin + 25 + 10) = .ok (sEvs, y3) ∧
        layoutExperience m st g c.experience y3 = .ok (eEvs, y4) ∧
        layoutEducation m st g c.education y4 = .ok (edEvs, y5) ∧
        layoutSkills m st g c.skills y5 = .ok (skEvs, y6) ∧
        evs = (layoutHeader g c.personalInfo g.margin).1 ++
              contactLine g c.personalInfo (g.margin + 25) ++
              [Ev.draw (DrawItem.rule g.margin (g.margin + 25 + 10)
                (g.pageWidth - g.margin) (g.margin + 25 + 10))] ++
              sEvs ++ eEvs ++ edEvs ++ skEvs ∧
        (strTruthy c.personalInfo.summary = false → sEvs = []) ∧
        (c.experience.getD [] = [] → eEvs = []) ∧
        (c.education.getD [] = [] → edEvs = []) ∧
        (c.skills.getD [] = [] → skEvs = []) := by
  intro m st g c evs h
  obtain ⟨sEvs, y3, eEvs, y4, edEvs, y5, skEvs, y6, hS, hE, hEd, hSk, hEq⟩ :=
    layoutResume_ok_factor m st g c evs h
  refine ⟨sEvs, y3, eEvs, y4, edEvs, y5, skEvs, y6, hS, hE, hEd, hSk, hEq,
    ?_, ?_, ?_, ?_⟩
  · intro hx
    rw [layoutSummary_of_not_truthy _ _ _ _ _ hx] at hS
    simp only [Except.ok.injEq, Prod.mk.injEq] at hS
    exact hS.1.symm
  · intro hx
    rw [layoutExperience_of_empty _ _ _ _ _ hx] at hE
    simp only [Except.ok.injEq, Prod.mk.injEq] at hE
    exact hE.1.symm
  · intro hx
    rw [layoutEducation_of_empty _ _ _ _ _ hx] at hEd
    simp only [Except.ok.injEq, Prod.mk.injEq] at hEd
    exact hEd.1.symm
  · intro hx
    rw [layoutSkills_of_empty _ _ _ _ _ hx] at hSk
    simp only [Except.ok.injEq, Prod.mk.injEq] at hSk
    exact hSk.1.symm

/-- Claim C8, witness: the Jane Doe layout instantiates the render order
with all four sections empty. -/
theorem claim_C8_witness :
    ∃ sEvs y3 eEvs y4 edEvs y5 skEvs y6,
      layoutSummary mTot.lift modernStyle a4Geometry janeContent.personalInfo
        (a4Geometry.margin + 25 + 10) = .ok (sEvs, y3) ∧
      layoutExperience mTot.lift modernStyle a4Geometry janeContent.experience
        y3 = .ok (eEvs, y4) ∧
      layoutEducation mTot.lift modernStyle a4Geometry janeContent.education
        y4 = .ok (edEvs, y5) ∧
      layoutSkills mTot.lift modernStyle a4Geometry janeContent.skills y5 =
        .ok (skEvs, y6) ∧
      [Ev.draw (DrawItem.text ["Jane Doe"] 15 25),
       Ev.draw (DrawItem.text ["Professional Title"] 15 33),
       Ev.draw (DrawItem.rule 15 50 195 50)] =
        (layoutHeader a4Geometry janeContent.personalInfo a4Geometry.margin).1 ++
        contactLine a4Geometry janeContent.personalInfo (a4Geometry.margin + 25) ++
        [Ev.draw (DrawItem.rule a4Geometry.margin (a4Geometry.margin + 25 + 10)
          (a4Geometry.pageWidth - a4Geometry.margin)
          (a4Geometry.margin + 25 + 10))] ++
        sEvs ++ eEvs ++ edEvs ++ skEvs ∧
      (strTruthy janeContent.personalInfo.summary = false → sEvs = []) ∧
      (janeContent.experience.getD [] = [] → eEvs = []) ∧
      (janeContent.education.getD [] = [] → edEvs = []) ∧
      (janeContent.skills.getD [] = [] → skEvs = []) :=
  claim_C8_render_order mTot.lift modernStyle a4Geometry janeContent
    [Ev.draw (DrawItem.text ["Jane Doe"] 15 25),
     Ev.draw (DrawItem.text ["Professional Title"] 15 33),
     Ev.draw (DrawItem.rule 15 50 195 50)] rfl

/-- Claim C9: each of the five AI generation endpoints rejects a request
whose stored counter has reached the limit of three with the limit-reached
response, without invoking the generator and without changing the counter;
below the limit the generator is invoked, and on generator success the
stored counter grows by exactly one. -/
theorem claim_C9_rate_limit :
    ∀ (ep : AIEndpoint) (c : Nat) (llm : Except Unit String),
      (aiGenerationLimit ≤ c →
        aiRoute ep (some c) llm = (AIResult.limitReached, false, some c)) ∧
      (c < aiGenerationLimit →
        (aiRoute ep (some c) llm).2.1 = true ∧
        ∀ a, llm = .ok a →
          aiRoute ep (some c) llm = (AIResult.ok a, true, some (c + 1))) := by
  intro ep c llm
  constructor
  · intro h
    cases ep <;> simp [aiRoute, handleAIGeneration, h]
  · intro h
    have hlt : ¬ c ≥ aiGenerationLimit := by omega
    constructor
    · cases ep <;> cases llm <;> simp [aiRoute, handleAIGeneration, hlt]
    · intro a ha
      subst ha
      cases ep <;> simp [aiRoute, handleAIGeneration, hlt]

/-- Claim C9, witness: at the limit the summary endpoint rejects without
invoking the generator; below it the bullets endpoint generates and
increments the counter to one. -/
theorem claim_C9_witness :
    aiRoute AIEndpoint.summary (some 3) (.ok "text") =
      (AIResult.limitReached, false, some 3) ∧
    aiRoute AIEndpoint.bullets (some 0) (.ok "text") =
      (AIResult.ok "text", true, some 1) :=
  ⟨(claim_C9_rate_limit AIEndpoint.summary 3 (.ok "text")).1 (by decide),
   ((claim_C9_rate_limit AIEndpoint.bullets 0 (.ok "text")).2 (by decide)).2
     "text" rfl⟩

/-- The member names every plain object literal inherits from
Object.prototype in ECMAScript; a property access with one of these keys
on the templateStyles object literal yields the inherited member (a
function or object, hence truthy), not undefined. -/
def objectPrototypeMemberNames : List String :=
  ["constructor", "hasOwnProperty", "isPrototypeOf", "propertyIsEnumerable",
   "toLocaleString", "toString", "valueOf", "__proto__",
   "__defineGetter__", "__defineSetter__", "__lookupGetter__",
   "__lookupSetter__"]

/-- The possible results of the JS property access
templateStyles[template]: one of the five own style records, a truthy
member inherited from Object.prototype, or undefined. -/
inductive TemplateLookup where
  | own (s : TemplateStyle)
  | inherited
  | missing
deriving DecidableEq, Repr

/-- The JS property access templateStyles[template], prototype chain
included: an own key yields its style record; otherwise an
Object.prototype member name yields the inherited member; any other
string yields undefined. -/
def templateStylesGet (t : String) : TemplateLookup :=
  match templateStyles t with
  | some s => .own s
  | none => if t ∈ objectPrototypeMemberNames then .inherited else .missing

/-- templateStyles[template] || templateStyles.modern under JS
truthiness: own records and inherited members are truthy objects, so only
undefined falls back to the modern record. -/
def resolveStyleJs (t : String) : TemplateLookup :=
  match templateStylesGet t with
  | .missing => .own modernStyle
  | r => r

/-- Claim C10, counterexample: the identifier toString is not one of the
five known template names, yet the JS lookup yields the truthy member
inherited from Object.prototype, the fallback to modern never fires, and
no defined style record is selected; constructor and proto behave the
same way. -/
theorem claim_C10_counterexample :
    templateStyles "toString" = none ∧
    templateStylesGet "toString" = TemplateLookup.inherited ∧
    resolveStyleJs "toString" = TemplateLookup.inherited ∧
    resolveStyleJs "toString" ≠ TemplateLookup.own modernStyle ∧
    templateStylesGet "constructor" = TemplateLookup.inherited ∧
    templateStylesGet "__proto__" = TemplateLookup.inherited := by
  decide

/-- Claim C10, amended: each of the five known template names selects its
own style record; an unknown identifier that is not an Object.prototype
member name yields undefined and the fallback selects the modern style;
for Object.prototype member names the truthy inherited member is kept and
no style record is selected. Whenever the lookup does select a style
record it agrees with the engine's resolveStyle, and rendering succeeds
for every template whose lookup does not hit an inherited member. -/
theorem claim_C10_template_fallback :
    (∀ t s, templateStyles t = some s → resolveStyleJs t = TemplateLookup.own s) ∧
    (∀ t, templateStyles t = none → t ∉ objectPrototypeMemberNames →
      resolveStyleJs t = TemplateLookup.own modernStyle) ∧
    (∀ t s, resolveStyleJs t = TemplateLookup.own s → resolveStyle t = s) ∧
    (∀ (m : TotalTextMetrics) (r : Resume),
      templateStylesGet r.template ≠ TemplateLookup.inherited →
      ∃ out, generateResumePDF m.lift r = .ok out) := by
  refine ⟨?_, ?_, ?_, ?_⟩
  · intro t s h; simp [resolveStyleJs, templateStylesGet, h]
  · intro t h hmem; simp [resolveStyleJs, templateStylesGet, h, hmem]
  · intro t s h
    simp only [resolveStyleJs, templateStylesGet] at h
    cases htt : templateStyles t with
    | some s0 =>
        rw [htt] at h
        simp only at h
        cases h
        simp [resolveStyle, htt]
    | none =>
        rw [htt] at h
        by_cases hmem : t ∈ objectPrototypeMemberNames
        · simp [hmem] at h
        · simp only [hmem, if_neg, ite_false] at h
          cases h
          simp [resolveStyle, htt]
  · intro m r _
    exact generateResumePDF_lift_isOk m r

/-- Claim C10, witness: modern selects its own record; classic (a template
name of another schema variant, not an Object.prototype member) falls back
to the modern style, in agreement with the engine's resolveStyle, and the
Jane Doe resume (template modern) renders. -/
theorem claim_C10_witness :
    resolveStyleJs "modern" = TemplateLookup.own modernStyle ∧
    resolveStyleJs "classic" = TemplateLookup.own modernStyle ∧
    resolveStyle "classic" = modernStyle ∧
    (∃ out, generateResumePDF mTot.lift janeResume = .ok out) :=
  ⟨claim_C10_template_fallback.1 "modern" modernStyle rfl,
   claim_C10_template_fallback.2.1 "classic" rfl (by decide),
   claim_C10_template_fallback.2.2.1 "classic" modernStyle (by decide),
   claim_C10_template_fallback.2.2.2 mTot janeResume (by decide)⟩

end ResumeWizard
